import Mathlib

set_option linter.unusedVariables false

/-!
Verification of the deterministic astrology template engine in `app.py`
(class `AdvancedPredictionEngine` and the `/api/generate-predictions` route).

The Python code is shallowly embedded: Python ints become `Int` (Python `%`
with a positive divisor agrees with `Int.emod`), Python strings become
`String`, dictionaries become total or `Option`-valued lookup functions,
and dictionary `.get` with a default becomes `Option.getD`.  The wall
clock (`datetime.now()` used only to label the 12 forecast months) is a
`Nat → String` parameter, and the one true-random draw (`random.choice`
over the four Sanskrit slokas) is an index parameter.
-/

namespace Kundali

/-- Validated birth input, mirroring the `data` dict handed to the engine:
`name`, `birth_date` (DDMMYYYY), `birth_time` (HHMM), `birth_place`. -/
structure BirthData where
  name : String
  birth_date : String
  birth_time : String
  birth_place : String
deriving DecidableEq

/-- Value type of the `zodiac_characteristics` table in
`setup_prediction_templates`. -/
structure ZodiacInfo where
  element : String
  ruler : String
  traits : List String
deriving DecidableEq

/-- The `zodiac_characteristics` dict from `setup_prediction_templates`. -/
def zodiac_characteristics (sign : String) : Option ZodiacInfo :=
  if sign = "Aries" then some ⟨"Fire", "Mars", ["courageous", "energetic", "competitive"]⟩
  else if sign = "Taurus" then some ⟨"Earth", "Venus", ["patient", "reliable", "devoted"]⟩
  else if sign = "Gemini" then some ⟨"Air", "Mercury", ["adaptable", "curious", "communicative"]⟩
  else if sign = "Cancer" then some ⟨"Water", "Moon", ["intuitive", "emotional", "protective"]⟩
  else if sign = "Leo" then some ⟨"Fire", "Sun", ["confident", "generous", "creative"]⟩
  else if sign = "Virgo" then some ⟨"Earth", "Mercury", ["analytical", "practical", "helpful"]⟩
  else if sign = "Libra" then some ⟨"Air", "Venus", ["diplomatic", "social", "fair-minded"]⟩
  else if sign = "Scorpio" then some ⟨"Water", "Mars/Pluto", ["passionate", "determined", "intense"]⟩
  else if sign = "Sagittarius" then some ⟨"Fire", "Jupiter", ["optimistic", "adventurous", "philosophical"]⟩
  else if sign = "Capricorn" then some ⟨"Earth", "Saturn", ["disciplined", "responsible", "ambitious"]⟩
  else if sign = "Aquarius" then some ⟨"Air", "Saturn/Uranus", ["innovative", "independent", "humanitarian"]⟩
  else if sign = "Pisces" then some ⟨"Water", "Jupiter/Neptune", ["compassionate", "artistic", "intuitive"]⟩
  else none

/-- Mirrors the chained lookup `zodiac_characteristics.get(sign).get(element)` with empty-string default. -/
def zodiac_element (sign : String) : String :=
  match zodiac_characteristics sign with
  | some i => i.element
  | none => ""

/-- Value type of the `nakshatra_influences` table. -/
structure NakshatraInfo where
  deity : String
  quality : String
deriving DecidableEq

/-- The `nakshatra_influences` dict from `setup_prediction_templates`. -/
def nakshatra_influences (n : String) : Option NakshatraInfo :=
  if n = "Ashwini" then some ⟨"Ashwini Kumaras", "quick and sharp"⟩
  else if n = "Bharani" then some ⟨"Yama", "transformative"⟩
  else if n = "Krittika" then some ⟨"Agni", "fiery and determined"⟩
  else if n = "Rohini" then some ⟨"Brahma", "creative and fertile"⟩
  else if n = "Mrigashira" then some ⟨"Soma", "explorative and curious"⟩
  else if n = "Ardra" then some ⟨"Rudra", "intense and transformative"⟩
  else if n = "Punarvasu" then some ⟨"Aditi", "renewing and abundant"⟩
  else if n = "Pushya" then some ⟨"Brihaspati", "nurturing and wise"⟩
  else if n = "Ashlesha" then some ⟨"Nagas", "mysterious and intuitive"⟩
  else if n = "Magha" then some ⟨"Pitris", "authoritative and traditional"⟩
  else if n = "Purva Phalguni" then some ⟨"Bhaga", "creative and luxurious"⟩
  else if n = "Uttara Phalguni" then some ⟨"Aryaman", "helpful and supportive"⟩
  else if n = "Hasta" then some ⟨"Savitar", "skillful and precise"⟩
  else if n = "Chitra" then some ⟨"Vishwakarma", "artistic and architectural"⟩
  else if n = "Swati" then some ⟨"Vayu", "independent and changeable"⟩
  else if n = "Vishakha" then some ⟨"Indra-Agni", "determined and goal-oriented"⟩
  else if n = "Anuradha" then some ⟨"Mitra", "friendly and collaborative"⟩
  else if n = "Jyeshtha" then some ⟨"Indra", "protective and authoritative"⟩
  else if n = "Mula" then some ⟨"Nirriti", "transformative and investigative"⟩
  else if n = "Purva Ashadha" then some ⟨"Apah", "influential and invincible"⟩
  else if n = "Uttara Ashadha" then some ⟨"Vishvedevas", "victorious and universal"⟩
  else if n = "Shravana" then some ⟨"Vishnu", "listening and learning"⟩
  else if n = "Dhanishta" then some ⟨"Vasus", "wealthy and musical"⟩
  else if n = "Shatabhisha" then some ⟨"Varuna", "healing and mysterious"⟩
  else if n = "Purva Bhadrapada" then some ⟨"Aja Ekapada", "fiery and transformative"⟩
  else if n = "Uttara Bhadrapada" then some ⟨"Ahirbudhnya", "calm and profound"⟩
  else if n = "Revati" then some ⟨"Pushan", "nurturing and abundant"⟩
  else none

/-- The `sanskrit_slokas` list. -/
def sanskrit_slokas : List String :=
  ["वक्रतुण्ड महाकाय सूर्यकोटि समप्रभ। निर्विघ्नं कुरु मे देव सर्वकार्येषु सर्वदा॥",
   "गजाननं भूतगणादिसेवितं कपित्थजम्बूफलसारभक्षितम्। उमासुतं शोकविनाशकारकं नमामि विघ्नेश्वरपादपङ्कजम्॥",
   "एकदन्तं महाकायं लम्बोदरं गजाननम्। विघ्ननाशकरं देवं हेरम्बं प्रणमाम्यहम्॥",
   "सुमुखश्चैकदन्तश्च कपिलो गजकर्णकः। लम्बोदरश्च विकटो विघ्ननाशो विनायकः॥"]

/-- Python slicing `s[a:b]` for in-range ASCII strings, on the underlying
character list so that the kernel can evaluate it. -/
def str_slice (s : String) (a b : Nat) : String :=
  ⟨(s.data.drop a).take (b - a)⟩

/-- The decimal-digit decades of the Unicode character database
(Numeric_Type Decimal, category Nd): each pair is the codepoint of the
zero digit and of the nine digit of one run of ten, as accepted by
CPython `str.isdigit` and parsed by `int()`.  The first decade is ASCII
`0`..`9`; the second is the Arabic-Indic digits U+0660..U+0669. -/
def py_decimal_decades : List (Nat × Nat) :=
  [(48, 57), (1632, 1641), (1776, 1785), (1984, 1993), (2406, 2415), (2534, 2543),
   (2662, 2671), (2790, 2799), (2918, 2927), (3046, 3055), (3174, 3183), (3302, 3311),
   (3430, 3439), (3558, 3567), (3664, 3673), (3792, 3801), (3872, 3881), (4160, 4169),
   (4240, 4249), (6112, 6121), (6160, 6169), (6470, 6479), (6608, 6617), (6784, 6793),
   (6800, 6809), (6992, 7001), (7088, 7097), (7232, 7241), (7248, 7257), (42528, 42537),
   (43216, 43225), (43264, 43273), (43472, 43481), (43504, 43513), (43600, 43609),
   (44016, 44025), (65296, 65305), (66720, 66729), (68912, 68921), (69734, 69743),
   (69872, 69881), (69942, 69951), (70096, 70105), (70384, 70393), (70736, 70745),
   (70864, 70873), (71248, 71257), (71360, 71369), (71472, 71481), (71904, 71913),
   (72016, 72025), (72784, 72793), (73040, 73049), (73120, 73129), (92768, 92777),
   (92864, 92873), (93008, 93017), (120782, 120791), (120792, 120801), (120802, 120811),
   (120812, 120821), (120822, 120831), (123200, 123209), (123632, 123641),
   (125264, 125273), (130032, 130041)]

/-- The remaining characters of the `str.isdigit` class: Numeric_Type
Digit without a decimal value (superscripts, subscripts, circled digits
and similar).  `str.isdigit` accepts them; `int()` rejects them with a
`ValueError`. -/
def py_digit_extras : List (Nat × Nat) :=
  [(178, 179), (185, 185), (4969, 4977), (6618, 6618), (8304, 8304), (8308, 8313),
   (8320, 8329), (9312, 9320), (9332, 9340), (9352, 9360), (9450, 9450), (9461, 9469),
   (9471, 9471), (10102, 10110), (10112, 10120), (10122, 10130), (68160, 68163),
   (69216, 69224), (69714, 69722), (127232, 127242)]

/-- Whether a character is a Unicode decimal digit (some decade of
`py_decimal_decades` contains it). -/
def py_char_isdecimal (c : Char) : Bool :=
  py_decimal_decades.any (fun r => decide (r.1 ≤ c.toNat ∧ c.toNat ≤ r.2))

/-- The decimal value of a Unicode decimal digit: its offset from the
zero of its decade (0 on non-digits, which `int()` never sees). -/
def py_digit_value (c : Char) : Nat :=
  match py_decimal_decades.find? (fun r => decide (r.1 ≤ c.toNat ∧ c.toNat ≤ r.2)) with
  | some r => c.toNat - r.1
  | none => 0

/-- Models Python `int(s)` on the decimal-digit strings the validator
lets through: every decimal digit, ASCII or not, contributes its decimal
value.  A string holding a Digit-typed non-decimal character (accepted
by `str.isdigit`) makes `int()` raise `ValueError` inside the `try`
block of the route instead; that event is an in-flight exception, which
the route model represents through its `gen_exception` parameter, and no
theorem below evaluates the engine at such an input. -/
def int_of_digits (s : String) : Int :=
  ((s.data.foldl (fun (a : Nat) c => a * 10 + py_digit_value c) 0 : Nat) : Int)

/-- `calculate_zodiac_sign(self, day, month)`: the if/elif chain of 12
inclusive date ranges, falling through to Pisces. -/
def calculate_zodiac_sign (day month : Int) : String × String :=
  if (month = 3 ∧ day ≥ 21) ∨ (month = 4 ∧ day ≤ 19) then ("Aries", "Mesha")
  else if (month = 4 ∧ day ≥ 20) ∨ (month = 5 ∧ day ≤ 20) then ("Taurus", "Vrishabha")
  else if (month = 5 ∧ day ≥ 21) ∨ (month = 6 ∧ day ≤ 20) then ("Gemini", "Mithuna")
  else if (month = 6 ∧ day ≥ 21) ∨ (month = 7 ∧ day ≤ 22) then ("Cancer", "Karka")
  else if (month = 7 ∧ day ≥ 23) ∨ (month = 8 ∧ day ≤ 22) then ("Leo", "Simha")
  else if (month = 8 ∧ day ≥ 23) ∨ (month = 9 ∧ day ≤ 22) then ("Virgo", "Kanya")
  else if (month = 9 ∧ day ≥ 23) ∨ (month = 10 ∧ day ≤ 22) then ("Libra", "Tula")
  else if (month = 10 ∧ day ≥ 23) ∨ (month = 11 ∧ day ≤ 21) then ("Scorpio", "Vrishchika")
  else if (month = 11 ∧ day ≥ 22) ∨ (month = 12 ∧ day ≤ 21) then ("Sagittarius", "Dhanu")
  else if (month = 12 ∧ day ≥ 22) ∨ (month = 1 ∧ day ≤ 19) then ("Capricorn", "Makara")
  else if (month = 1 ∧ day ≥ 20) ∨ (month = 2 ∧ day ≤ 18) then ("Aquarius", "Kumbha")
  else ("Pisces", "Meena")

/-- The `ascendant_map` dict of `calculate_ascendant`, as an association
list in the literal order of the Python dict. -/
def ascendant_table : List (Int × String × String) :=
  [(0, "Aries", "Mesha"), (2, "Taurus", "Vrishabha"), (4, "Gemini", "Mithuna"),
   (6, "Cancer", "Karka"), (8, "Leo", "Simha"), (10, "Virgo", "Kanya"),
   (12, "Libra", "Tula"), (14, "Scorpio", "Vrishchika"), (16, "Sagittarius", "Dhanu"),
   (18, "Capricorn", "Makara"), (20, "Aquarius", "Kumbha"), (22, "Pisces", "Meena")]

/-- `sorted(ascendant_map.keys(), reverse=True)` evaluated on the literal
dict: the descending iteration order of the lookup loop. -/
def ascendant_keys : List Int := [22, 20, 18, 16, 14, 12, 10, 8, 6, 4, 2, 0]

/-- `ascendant_map[time_key]`; the default branch is unreachable because
the loop only indexes with keys of the dict. -/
def ascendant_lookup (k : Int) : String × String :=
  match ascendant_table.lookup k with
  | some v => v
  | none => ("Aries", "Mesha")

/-- `calculate_ascendant(self, hour)`: first key `≤ hour` in descending
key order, with the final return of the Aries pair as fallback. -/
def calculate_ascendant (hour : Int) : String × String :=
  match ascendant_keys.find? (fun k => decide (k ≤ hour)) with
  | some k => ascendant_lookup k
  | none => ("Aries", "Mesha")

/-- The literal `nakshatras` list of `calculate_nakshatra`. -/
def nakshatra_list : List String :=
  ["Ashwini", "Bharani", "Krittika", "Rohini", "Mrigashira", "Ardra",
   "Punarvasu", "Pushya", "Ashlesha", "Magha", "Purva Phalguni", "Uttara Phalguni",
   "Hasta", "Chitra", "Swati", "Vishakha", "Anuradha", "Jyeshtha",
   "Mula", "Purva Ashadha", "Uttara Ashadha", "Shravana", "Dhanishta", "Shatabhisha",
   "Purva Bhadrapada", "Uttara Bhadrapada", "Revati"]

/-- `calculate_nakshatra(self, day)`: `nakshatras[(day - 1) % len(nakshatras)]`.
Python `%` with positive divisor is `Int.emod`, so the index is in
`[0, 27)` and the `getD` default is unreachable. -/
def calculate_nakshatra (day : Int) : String :=
  nakshatra_list.getD ((day - 1) % (nakshatra_list.length : Int)).toNat ""

/-- The `lucky_numbers` dict of `get_lucky_elements`. -/
def lucky_numbers_map (n : Int) : Option (List Int) :=
  if n = 1 then some [1, 4, 7] else if n = 2 then some [2, 5, 8]
  else if n = 3 then some [3, 6, 9] else if n = 4 then some [1, 4, 7]
  else if n = 5 then some [2, 5, 8] else if n = 6 then some [3, 6, 9]
  else if n = 7 then some [1, 4, 7] else if n = 8 then some [2, 5, 8]
  else if n = 9 then some [3, 6, 9] else none

/-- The `color_map` dict of `get_lucky_elements`. -/
def color_map (n : Int) : Option String :=
  if n = 1 then some "Red" else if n = 2 then some "Orange"
  else if n = 3 then some "Yellow" else if n = 4 then some "Green"
  else if n = 5 then some "Blue" else if n = 6 then some "Indigo"
  else if n = 7 then some "Violet" else if n = 8 then some "Pink"
  else if n = 9 then some "Gold" else none

/-- The `day_map` dict of `get_lucky_elements`. -/
def day_map (n : Int) : Option String :=
  if n = 0 then some "Monday" else if n = 1 then some "Tuesday"
  else if n = 2 then some "Wednesday" else if n = 3 then some "Thursday"
  else if n = 4 then some "Friday" else if n = 5 then some "Saturday"
  else if n = 6 then some "Sunday" else none

/-- Result record of `get_lucky_elements`. -/
structure LuckyElements where
  lucky_number : List Int
  lucky_color : String
  lucky_day : String
deriving DecidableEq

/-- `get_lucky_elements(self, day, month)`. -/
def get_lucky_elements (day month : Int) : LuckyElements :=
  let lucky_num0 := (day + month) % 9
  let lucky_num := if lucky_num0 = 0 then 9 else lucky_num0
  { lucky_number := (lucky_numbers_map lucky_num).getD [lucky_num]
    lucky_color := (color_map lucky_num).getD "Blue"
    lucky_day := (day_map ((day + month) % 7)).getD "Thursday" }

/-- `generate_personalized_overview(self, zodiac_sign, ascendant, nakshatra,
birth_data)`.  `birth_number = (day % 9) or 9` is the Python int-or idiom. -/
def generate_personalized_overview (zodiac_sign ascendant nakshatra : String)
    (birth_data : BirthData) : String :=
  let zodiac_info := zodiac_characteristics zodiac_sign
  let birth_date := birth_data.birth_date
  let day := int_of_digits (str_slice birth_date 0 2)
  let birth_number := if day % 9 = 0 then 9 else day % 9
  let overview_templates : List String :=
    ["Based on your " ++ zodiac_sign ++ " Sun sign and " ++ ascendant ++
       " Ascendant, 2025-2026 brings significant planetary shifts. ",
     "Your " ++ nakshatra ++ " Nakshatra combined with " ++ zodiac_sign ++
       " zodiac indicates a transformative period in 2025-2026. ",
     "The alignment of planets for your " ++ zodiac_sign ++
       " chart suggests 2025-2026 will be a year of growth and opportunities. "]
  let element := match zodiac_info with | some i => i.element | none => ""
  let influence :=
    if element = "Fire" then
      "Mars and Jupiter\x27s transit will energize your natural leadership qualities and bring new beginnings."
    else if element = "Earth" then
      "Saturn\x27s steady influence will help you build solid foundations and achieve long-term goals."
    else if element = "Air" then
      "Mercury and Venus will enhance your communication skills and bring intellectual growth."
    else if element = "Water" then
      "The Moon\x27s cycles will deepen your intuition and emotional connections throughout the year."
    else
      "Planetary movements favor personal and professional development."
  overview_templates.getD (birth_number % (overview_templates.length : Int)).toNat "" ++ influence

/-- `generate_career_prediction(self, zodiac_sign, nakshatra, month_index,
birth_data)`: element-keyed template lists (falling back to the Fire list),
indexed by `month_index % len(templates)`. -/
def generate_career_prediction (zodiac_sign nakshatra : String) (month_index : Nat)
    (birth_data : BirthData) : String :=
  let zodiac_info := zodiac_characteristics zodiac_sign
  let ruler := match zodiac_info with | some i => i.ruler | none => ""
  let traits := match zodiac_info with | some i => i.traits | none => []
  let fire : List String :=
    ["Your natural " ++ traits.headD "leadership" ++
       " qualities will shine in professional settings. Excellent time for taking initiative and starting new projects.",
     ruler ++ "\x27s influence brings opportunities for advancement. Your competitive spirit will help you overcome challenges.",
     "Creative projects and leadership roles favor you. Your energy and confidence will impress superiors."]
  let earth : List String :=
    ["Systematic planning and patience will yield long-term career benefits. Your reliable nature will be recognized.",
     "Practical skills and attention to detail will lead to success. " ++ ruler ++
       "\x27s steady influence supports gradual growth.",
     "Building solid foundations in your career. Your disciplined approach will bring stability and recognition."]
  let air : List String :=
    ["Communication and networking will open new doors. Your " ++ traits.getD 1 "adaptable" ++
       " nature helps in changing environments.",
     "Intellectual pursuits and learning new skills will benefit your career. " ++ ruler ++
       " enhances your mental agility.",
     "Collaboration and teamwork bring success. Your social skills will help build important professional relationships."]
  let water : List String :=
    ["Your intuition will guide you in important career decisions. Emotional intelligence becomes your strength.",
     "Creative and nurturing professions favor you. " ++ ruler ++
       "\x27s influence deepens your understanding of people.",
     "Trust your instincts in professional matters. Your protective nature will serve you well in leadership."]
  let element := match zodiac_info with | some i => i.element | none => "Fire"
  let templates :=
    if element = "Fire" then fire else if element = "Earth" then earth
    else if element = "Air" then air else if element = "Water" then water else fire
  templates.getD (month_index % templates.length) ""

/-- `generate_finance_prediction(self, zodiac_sign, nakshatra, month_index,
birth_data)`. -/
def generate_finance_prediction (zodiac_sign nakshatra : String) (month_index : Nat)
    (birth_data : BirthData) : String :=
  let zodiac_info := zodiac_characteristics zodiac_sign
  let fire : List String :=
    ["Investments in technology and innovation sectors show promise. Your bold approach to finances may bring unexpected gains.",
     "Income through leadership roles and entrepreneurial ventures. Avoid impulsive spending and focus on long-term wealth.",
     "Financial growth through taking calculated risks. Your natural confidence in money matters serves you well."]
  let earth : List String :=
    ["Stable financial growth through traditional investments. Real estate and long-term savings plans favor you.",
     "Systematic financial planning yields excellent results. Your practical approach to money management brings security.",
     "Patience in financial matters rewards you. Conservative investments and savings strategies work best."]
  let air : List String :=
    ["Multiple income sources through communication and networking. Intellectual property and digital ventures show promise.",
     "Financial gains through partnerships and collaborations. Your adaptability helps you seize new opportunities.",
     "Investment in education and skills development brings future financial benefits. Stay open to unconventional ideas."]
  let water : List String :=
    ["Intuitive financial decisions prove beneficial. Investments in healing arts and creative fields show potential.",
     "Emotional stability leads to better financial choices. Trust your instincts regarding money matters.",
     "Financial security through nurturing existing resources. Avoid emotional spending and focus on practical needs."]
  let element := match zodiac_info with | some i => i.element | none => "Fire"
  let templates :=
    if element = "Fire" then fire else if element = "Earth" then earth
    else if element = "Air" then air else if element = "Water" then water else fire
  templates.getD (month_index % templates.length) ""

/-- `generate_relationship_prediction(self, zodiac_sign, nakshatra,
month_index, birth_data)`. -/
def generate_relationship_prediction (zodiac_sign nakshatra : String) (month_index : Nat)
    (birth_data : BirthData) : String :=
  let zodiac_info := zodiac_characteristics zodiac_sign
  let traits := match zodiac_info with | some i => i.traits | none => []
  let fire : List String :=
    ["Your " ++ traits.headD "passionate" ++
       " nature enhances romantic relationships. Social gatherings bring meaningful connections.",
     "Leadership in relationships works well. Your confidence attracts partners who appreciate strong personalities.",
     "Adventurous activities with loved ones strengthen bonds. Your energetic approach to relationships brings joy."]
  let earth : List String :=
    ["Stable and reliable relationships flourish. Your consistent nature builds trust and deep connections.",
     "Practical support and loyalty strengthen partnerships. Your devoted approach to relationships is appreciated.",
     "Building long-term foundations in relationships. Your patience helps resolve any conflicts peacefully."]
  let air : List String :=
    ["Intellectual connections and good communication enhance relationships. Your curious nature makes you interesting.",
     "Social networks and group activities bring new friendships. Your adaptability helps in various social situations.",
     "Meaningful conversations deepen existing relationships. Your diplomatic nature helps maintain harmony."]
  let water : List String :=
    ["Emotional depth and intuition strengthen bonds. Your compassionate nature nurtures relationships.",
     "Intimate connections and shared feelings bring closeness. Your protective instincts create safe spaces.",
     "Healing and supportive relationships flourish. Your intuitive understanding of others\x27 needs is valuable."]
  let element := match zodiac_info with | some i => i.element | none => "Fire"
  let templates :=
    if element = "Fire" then fire else if element = "Earth" then earth
    else if element = "Air" then air else if element = "Water" then water else fire
  templates.getD (month_index % templates.length) ""

/-- `generate_health_prediction(self, zodiac_sign, nakshatra, month_index,
birth_data)`. -/
def generate_health_prediction (zodiac_sign nakshatra : String) (month_index : Nat)
    (birth_data : BirthData) : String :=
  let zodiac_info := zodiac_characteristics zodiac_sign
  let fire : List String :=
    ["Focus on managing stress and anger. Regular exercise channels your abundant energy positively.",
     "Pay attention to headaches and inflammation. Cooling foods and relaxation techniques benefit you.",
     "High-energy activities maintain your vitality. Balance intense workouts with proper rest."]
  let earth : List String :=
    ["Digestive health needs attention. Regular meals and grounding exercises maintain your stability.",
     "Focus on joint and bone health. Weight-bearing exercises and calcium-rich foods are beneficial.",
     "Routine health checkups prevent issues. Your consistent nature helps maintain good health habits."]
  let air : List String :=
    ["Nervous system and respiratory health need care. Breathing exercises and mental relaxation help.",
     "Manage anxiety through mindfulness. Light exercises and social activities maintain your well-being.",
     "Balance mental stimulation with physical activity. Your adaptable nature helps you try various health routines."]
  let water : List String :=
    ["Emotional health impacts physical well-being. Water-based exercises and meditation are beneficial.",
     "Focus on lymphatic system and fluid balance. Hydration and emotional expression maintain health.",
     "Intuitive eating and listening to body signals work best. Your compassionate nature extends to self-care."]
  let element := match zodiac_info with | some i => i.element | none => "Fire"
  let templates :=
    if element = "Fire" then fire else if element = "Earth" then earth
    else if element = "Air" then air else if element = "Water" then water else fire
  templates.getD (month_index % templates.length) ""

/-- The per-ruler lists of the local `ruler_remedies` dict in
`generate_personalized_remedies`. -/
def ruler_remedies (r : String) : Option (List String) :=
  if r = "Sun" then some
    ["Offer water to Sun god every Sunday morning",
     "Chant Gayatri Mantra daily during sunrise",
     "Donate wheat or jaggery on Sundays"]
  else if r = "Moon" then some
    ["Observe fast on Mondays or consume only milk",
     "Chant Chandra Mantra on Monday evenings",
     "Donate white clothes or rice on Mondays"]
  else if r = "Mars" then some
    ["Chant Hanuman Chalisa on Tuesdays",
     "Donate red clothes or lentils on Tuesdays",
     "Fast on Tuesdays or avoid non-veg food"]
  else if r = "Mercury" then some
    ["Chant Vishnu Sahasranama on Wednesdays",
     "Donate green clothes or moong dal",
     "Feed birds, especially on Wednesdays"]
  else if r = "Jupiter" then some
    ["Chant Guru Mantra on Thursdays",
     "Donate yellow clothes, turmeric, or gram dal",
     "Help teachers and students"]
  else if r = "Venus" then some
    ["Chant Shri Suktam or Lakshmi Mantra on Fridays",
     "Donate white clothes, rice, or silver",
     "Maintain harmony in relationships"]
  else if r = "Saturn" then some
    ["Light sesame oil lamp under Peepal tree on Saturdays",
     "Donate black til, iron items, or oil",
     "Help elderly people and those in need"]
  else none

/-- Python `s.split(sep)[0]`: the characters before the first separator
(the whole string when the separator does not occur). -/
def split_head (s : String) (sep : Char) : String :=
  ⟨s.data.takeWhile (fun c => c != sep)⟩

/-- The separator of the composite-ruler lookup, a forward slash. -/
def sep_slash : Char := '/'

/-- The Jupiter list, the default of the `ruler_remedies.get` lookup. -/
def jupiter_remedies : List String :=
  ["Chant Guru Mantra on Thursdays",
   "Donate yellow clothes, turmeric, or gram dal",
   "Help teachers and students"]

/-- `generate_personalized_remedies(self, zodiac_sign, nakshatra,
birth_data)`: 3 base remedies keyed by the ruler substring before the slash, with Jupiter
fallback, one deity remedy when the deity string is truthy, and one extra
remedy for the Fire and Water elements. -/
def generate_personalized_remedies (zodiac_sign nakshatra : String)
    (birth_data : BirthData) : List String :=
  let zodiac_info := zodiac_characteristics zodiac_sign
  let nakshatra_info := nakshatra_influences nakshatra
  let ruler := match zodiac_info with | some i => i.ruler | none => ""
  let remedies := (ruler_remedies (split_head ruler sep_slash)).getD jupiter_remedies
  let nakshatra_deity := match nakshatra_info with | some i => i.deity | none => ""
  let remedies :=
    if nakshatra_deity ≠ "" then
      remedies ++ ["Offer prayers to " ++ nakshatra_deity ++ " during important decisions"]
    else remedies
  let element := match zodiac_info with | some i => i.element | none => ""
  if element = "Fire" then remedies ++ ["Practice Surya Namaskar daily"]
  else if element = "Water" then remedies ++ ["Perform abhishekam to Shiva lingam with water"]
  else remedies

/-- `generate_auspicious_days(self, birth_day, birth_month, month_index)`:
the `month_index` and `birth_month` parameters are accepted but unused. -/
def generate_auspicious_days (birth_day birth_month : Int) (month_index : Nat) : String :=
  let base_days := (List.range 3).map (fun i => (birth_day + (i : Int)) % 28 + 1)
  toString (base_days.getD 0 0) ++ ", " ++ toString (base_days.getD 1 0) ++ ", " ++
    toString (base_days.getD 2 0)

/-- `generate_special_notes(self, zodiac_sign, nakshatra, month_index)`. -/
def generate_special_notes (zodiac_sign nakshatra : String) (month_index : Nat) : String :=
  let zodiac_info := zodiac_characteristics zodiac_sign
  let nakshatra_info := nakshatra_influences nakshatra
  let notes : List String :=
    ["Your " ++ zodiac_sign ++ " energy combined with " ++ nakshatra ++
       " nakshatra brings unique opportunities this month.",
     "The " ++ (match nakshatra_info with | some i => i.quality | none => "special") ++
       " quality of your nakshatra influences this period positively.",
     "Planetary transits favor your " ++
       (match zodiac_info with | some i => i.element | none => "") ++
       " element characteristics this month."]
  notes.getD (month_index % notes.length) ""

/-- One entry of the `monthly_predictions` list. -/
structure MonthlyPrediction where
  month : String
  career : String
  finance : String
  relationships : String
  health : String
  auspicious_days : String
  special_notes : String
deriving DecidableEq

/-- `generate_monthly_predictions(self, birth_data)`.  The wall clock only
supplies the display label of forecast month `i`
(the month-and-year rendering of now plus 30 times i days), abstracted
as `month_name`.  The call pair `random.seed(sum(ord(c) for c in name) +
day + month)` / `random.seed()` brackets the loop, but no random draw
happens in between, so the seeded state is unobservable and the function
is deterministic. -/
def generate_monthly_predictions (month_name : Nat → String)
    (birth_data : BirthData) : List MonthlyPrediction :=
  let birth_date := birth_data.birth_date
  let day := int_of_digits (str_slice birth_date 0 2)
  let month := int_of_digits (str_slice birth_date 2 4)
  let zodiac_sign := (calculate_zodiac_sign day month).1
  let nakshatra := calculate_nakshatra day
  (List.range 12).map (fun i =>
    { month := month_name i
      career := generate_career_prediction zodiac_sign nakshatra i birth_data
      finance := generate_finance_prediction zodiac_sign nakshatra i birth_data
      relationships := generate_relationship_prediction zodiac_sign nakshatra i birth_data
      health := generate_health_prediction zodiac_sign nakshatra i birth_data
      auspicious_days := generate_auspicious_days day month i
      special_notes := generate_special_notes zodiac_sign nakshatra i })

/-- The `predictions` sub-dict of the engine result. -/
structure Predictions where
  overview : String
  monthly : List MonthlyPrediction
  remedies : List String
deriving DecidableEq

/-- The `chart_info` sub-dict of the engine result. -/
structure ChartInfo where
  ascendant : String
  ascendant_sanskrit : String
  moon_sign : String
  moon_sign_sanskrit : String
  sun_sign : String
  nakshatra : String
  zodiac_sign : String
  zodiac_sanskrit : String
deriving DecidableEq

/-- The full engine result dict. -/
structure PredictionBundle where
  predictions : Predictions
  chart_info : ChartInfo
  lucky_elements : LuckyElements
  sanskrit_sloka : String
deriving DecidableEq

/-- `AdvancedPredictionEngine.generate_predictions(self, birth_data)`.
`sloka_index` models the unseeded `random.choice(self.sanskrit_slokas)`
draw (the only nondeterministic part of the result); `month_name` models
the current-date clock.  `year = int(birth_date[4:8])` is parsed by the
Python but never used, and is omitted here. -/
def generate_predictions (month_name : Nat → String) (sloka_index : Nat)
    (birth_data : BirthData) : PredictionBundle :=
  let birth_date := birth_data.birth_date
  let day := int_of_digits (str_slice birth_date 0 2)
  let month := int_of_digits (str_slice birth_date 2 4)
  let birth_time := birth_data.birth_time
  let hour := if birth_time.length ≥ 2 then int_of_digits (str_slice birth_time 0 2) else 12
  let z := calculate_zodiac_sign day month
  let a := calculate_ascendant hour
  let nakshatra := calculate_nakshatra day
  let lucky_elements := get_lucky_elements day month
  let monthly_predictions := generate_monthly_predictions month_name birth_data
  let yearly_overview := generate_personalized_overview z.1 a.1 nakshatra birth_data
  let personalized_remedies := generate_personalized_remedies z.1 nakshatra birth_data
  { predictions :=
      { overview := yearly_overview
        monthly := monthly_predictions
        remedies := personalized_remedies }
    chart_info :=
      { ascendant := a.1, ascendant_sanskrit := a.2
        moon_sign := z.1, moon_sign_sanskrit := z.2
        sun_sign := z.1, nakshatra := nakshatra
        zodiac_sign := z.1, zodiac_sanskrit := z.2 }
    lucky_elements := lucky_elements
    sanskrit_sloka := sanskrit_slokas.getD (sloka_index % sanskrit_slokas.length) "" }

/-- Raw JSON payload of the `/api/generate-predictions` route: each field
either absent (`none`) or a string. -/
structure RequestData where
  name : Option String
  birth_date : Option String
  birth_time : Option String
  birth_place : Option String
deriving DecidableEq

/-- Outcome of one request to the route: a 400 validation error, a 500
generation failure, or a 200 success carrying the bundle.  Only the
`success` constructor carries a `PredictionBundle`, so an error response
can never hold a fragment of a bundle. -/
inductive RouteResult where
  | validationError (message : String)
  | serverError (message : String)
  | success (bundle : PredictionBundle)
deriving DecidableEq

/-- Whether a `RouteResult` carries a bundle. -/
def RouteResult.has_bundle : RouteResult → Bool
  | .success _ => true
  | _ => false

/-- Python dict access `data[field]` for the four known field names. -/
def get_field (d : RequestData) (f : String) : Option String :=
  if f = "name" then d.name
  else if f = "birth_date" then d.birth_date
  else if f = "birth_time" then d.birth_time
  else if f = "birth_place" then d.birth_place
  else none

/-- The `required_fields` list of the route. -/
def required_fields : List String := ["name", "birth_date", "birth_time", "birth_place"]

/-- `field not in data or not data[field]`: absent, or falsy (empty string). -/
def field_absent (d : RequestData) (f : String) : Bool :=
  match get_field d f with
  | none => true
  | some s => s.data.isEmpty

/-- Python `str.isdigit`: nonempty and every character of Numeric_Type
Decimal or Digit — the full Unicode class, not just ASCII `0`..`9`. -/
def py_str_isdigit (s : String) : Bool :=
  !s.data.isEmpty && s.data.all (fun c =>
    py_char_isdecimal c ||
      py_digit_extras.any (fun r => decide (r.1 ≤ c.toNat ∧ c.toNat ≤ r.2)))

/-- The ASCII fragment of the digit check: nonempty and all characters
in `0`..`9`.  Used to scope theorems to ASCII-digit payloads; it is
strictly stronger than `py_str_isdigit`. -/
def ascii_isdigit (s : String) : Bool :=
  !s.data.isEmpty && s.data.all (fun c => decide (48 ≤ c.toNat ∧ c.toNat ≤ 57))

/-- The six validation messages the route can emit. -/
def validation_messages : List String :=
  ["Missing required field: name",
   "Missing required field: birth_date",
   "Missing required field: birth_time",
   "Missing required field: birth_place",
   "Birth date must be in DDMMYYYY format",
   "Birth time must be in HHMM format (24-hour)"]

/-- The `/api/generate-predictions` route handler (`generate_predictions`
at module level): the `required_fields` loop, the two format checks, then
the engine call inside the `try` block.  `gen_exception = some e` models
an unexpected exception with text `str(e) = e` raised during generation;
the `except` clause answers 500 with
the fixed failure message concatenated with `str(e)`.  The translation, gemstone
and language decoration of the success path are out of scope and omitted. -/
def generate_predictions_route (month_name : Nat → String) (sloka_index : Nat)
    (gen_exception : Option String) (data : RequestData) : RouteResult :=
  match required_fields.find? (fun f => field_absent data f) with
  | some f => .validationError ("Missing required field: " ++ f)
  | none =>
    if (data.birth_date.getD "").length ≠ 8 ∨ py_str_isdigit (data.birth_date.getD "") = false then
      .validationError "Birth date must be in DDMMYYYY format"
    else if (data.birth_time.getD "").length ≠ 4 ∨ py_str_isdigit (data.birth_time.getD "") = false then
      .validationError "Birth time must be in HHMM format (24-hour)"
    else
      match gen_exception with
      | some e => .serverError ("Failed to generate predictions: " ++ e)
      | none =>
        .success (generate_predictions month_name sloka_index
          { name := data.name.getD ""
            birth_date := data.birth_date.getD ""
            birth_time := data.birth_time.getD ""
            birth_place := data.birth_place.getD "" })

/-- A fixed stand-in for the current-date clock labels. -/
def month_name_fixed : Nat → String := fun i => "Month " ++ toString i

/-- The birth input of the end-to-end scenario in the spec. -/
def test_birth_data : BirthData :=
  { name := "Test", birth_date := "15081990", birth_time := "1230", birth_place := "Delhi" }

/-- The end-to-end scenario as a raw request payload. -/
def valid_request : RequestData :=
  { name := some "Test", birth_date := some "15081990",
    birth_time := some "1230", birth_place := some "Delhi" }

/-- The malformed-input scenario of the spec: a 7-character birth date. -/
def malformed_request : RequestData :=
  { name := some "Test", birth_date := some "3101199",
    birth_time := some "1230", birth_place := some "Delhi" }

/-- A payload whose birth date is eight Arabic-Indic digits
(U+0663, digit three): not ASCII digits, yet accepted by the real
validator, since `str.isdigit` covers the full Unicode digit class. -/
def unicode_request : RequestData :=
  { name := some "Test", birth_date := some "٣٣٣٣٣٣٣٣",
    birth_time := some "1230", birth_place := some "Delhi" }

/-- The 12 sign names the zodiac table can produce. -/
def zodiac_sign_names : List String :=
  ["Aries", "Taurus", "Gemini", "Cancer", "Leo", "Virgo",
   "Libra", "Scorpio", "Sagittarius", "Capricorn", "Aquarius", "Pisces"]

/-!  Claim C1. -/

/-- C1 counterexample: on the end-to-end input of the spec
(`name "Test"`, `birth_date "15081990"`, `birth_time "1230"`), the
derived nakshatra is `nakshatra_list[14] = "Swati"`, not `"Anuradha"` as
the claim states (`"Anuradha"` sits at index 16 of the table). -/
theorem C1_counterexample :
    (generate_predictions month_name_fixed 0 test_birth_data).chart_info.nakshatra = "Swati" ∧
      (generate_predictions month_name_fixed 0 test_birth_data).chart_info.nakshatra ≠ "Anuradha" := by
  constructor
  · decide
  · decide

/-- C1 (amended): for the input `{name: "Test", birth_date: "15081990",
birth_time: "1230", birth_place: "Delhi"}`, `generate_predictions` derives
zodiac sign Leo, ascendant Libra from hour 12, nakshatra
`nakshatra_list[(15-1) mod 27] = nakshatra_list[14] = "Swati"`, lucky
number key `(15+8) mod 9 = 5` giving lucky color Blue, and lucky weekday
`(15+8) mod 7 = 2` giving Wednesday. -/
theorem C1_end_to_end_amended :
    (generate_predictions month_name_fixed 0 test_birth_data).chart_info.zodiac_sign = "Leo" ∧
    (generate_predictions month_name_fixed 0 test_birth_data).chart_info.ascendant = "Libra" ∧
    (generate_predictions month_name_fixed 0 test_birth_data).chart_info.nakshatra = "Swati" ∧
    calculate_nakshatra 15 = nakshatra_list.getD 14 "" ∧
    (generate_predictions month_name_fixed 0 test_birth_data).lucky_elements.lucky_color = "Blue" ∧
    (generate_predictions month_name_fixed 0 test_birth_data).lucky_elements.lucky_day = "Wednesday" := by
  refine ⟨?_, ?_, ?_, ?_, ?_, ?_⟩ <;> decide

/-!  Claim C3. -/

/-- C3 counterexample: the claim asserts that
`nakshatra(day) == nakshatra(day + 27)` is false in general over
`day ∈ 1..31`; already at `day = 1` the two sides are equal (both are
`"Ashwini"`), and in fact they are equal for every day. -/
theorem C3_counterexample :
    calculate_nakshatra 1 = calculate_nakshatra (1 + 27) ∧
      calculate_nakshatra 1 = "Ashwini" := by
  constructor
  · decide
  · decide

/-- C3 (amended): for every day in `1..31`, `nakshatra(day)` equals the
literal 27-entry nakshatra table at index `(day-1) mod 27`, and
`nakshatra(day) = nakshatra(day + 27)` always holds (the index is taken
modulo 27, so the function is 27-periodic rather than injective on
shifted days). -/
theorem C3_nakshatra_table_amended (day : Int) (h1 : 1 ≤ day) (h2 : day ≤ 31) :
    calculate_nakshatra day = nakshatra_list.getD ((day - 1) % 27).toNat "" ∧
      calculate_nakshatra day = calculate_nakshatra (day + 27) := by
  constructor
  · rfl
  · unfold calculate_nakshatra
    have hl : ((nakshatra_list.length : Nat) : Int) = 27 := by decide
    rw [hl]
    have e : (day + 27 - 1) % 27 = (day - 1) % 27 := by omega
    rw [e]

/-- C3 witness: the amended theorem applied at day 5. -/
theorem C3_nakshatra_table_witness :
    calculate_nakshatra 5 = nakshatra_list.getD (((5 : Int) - 1) % 27).toNat "" ∧
      calculate_nakshatra 5 = calculate_nakshatra (5 + 27) :=
  C3_nakshatra_table_amended 5 (by decide) (by decide)

/-!  Claim C4. -/

/-- Exhaustive check of zodiac totality over all valid day/month pairs. -/
lemma zodiac_total_aux :
    ∀ d ∈ Finset.Icc (1 : Int) 31, ∀ m ∈ Finset.Icc (1 : Int) 12,
      (calculate_zodiac_sign d m).1 ∈ zodiac_sign_names := by decide

/-- C4: for every valid `(day, month)` pair (day `1..31`, month `1..12`),
`calculate_zodiac_sign` returns one of the 12 fixed sign names, and the
boundary dates behave as documented: day 21 month 3 gives Aries and day
20 month 3 gives Pisces. -/
theorem C4_zodiac_total (day month : Int)
    (hd1 : 1 ≤ day) (hd2 : day ≤ 31) (hm1 : 1 ≤ month) (hm2 : month ≤ 12) :
    (calculate_zodiac_sign day month).1 ∈ zodiac_sign_names ∧
      calculate_zodiac_sign 21 3 = ("Aries", "Mesha") ∧
      calculate_zodiac_sign 20 3 = ("Pisces", "Meena") := by
  refine ⟨?_, by decide, by decide⟩
  exact zodiac_total_aux day (Finset.mem_Icc.mpr ⟨hd1, hd2⟩)
    month (Finset.mem_Icc.mpr ⟨hm1, hm2⟩)

/-- C4 witness: the theorem applied at day 15, month 8. -/
theorem C4_zodiac_total_witness :
    (calculate_zodiac_sign 15 8).1 ∈ zodiac_sign_names ∧
      calculate_zodiac_sign 21 3 = ("Aries", "Mesha") ∧
      calculate_zodiac_sign 20 3 = ("Pisces", "Meena") :=
  C4_zodiac_total 15 8 (by decide) (by decide) (by decide) (by decide)

/-!  Claim C5. -/

/-- An arbitrary birth record; `generate_personalized_remedies` receives
`birth_data` but never reads it, so any record gives the same remedies. -/
def default_birth : BirthData :=
  { name := "", birth_date := "", birth_time := "", birth_place := "" }

/-- Exhaustive length check of the remedies list over the 12 signs and
the nakshatras of all days `1..31`. -/
lemma remedies_aux :
    ∀ s ∈ zodiac_sign_names, ∀ d ∈ Finset.Icc (1 : Int) 31,
      ((generate_personalized_remedies s (calculate_nakshatra d) default_birth).length = 4 ∨
        (generate_personalized_remedies s (calculate_nakshatra d) default_birth).length = 5) ∧
      generate_personalized_remedies s (calculate_nakshatra d) default_birth ≠ [] ∧
      ((generate_personalized_remedies s (calculate_nakshatra d) default_birth).length = 5 ↔
        (zodiac_element s = "Fire" ∨ zodiac_element s = "Water")) := by decide

/-- C5: for every one of the 12 zodiac signs and any nakshatra derived
from a valid day, the generated remedies list has length exactly 4 or 5
and is never empty, and it has length 5 exactly when the element of the
sign is Fire or Water (3 ruler-keyed base remedies plus the
nakshatra-deity remedy, plus the element extra). -/
theorem C5_remedies_length (sign : String) (day : Int) (bd : BirthData)
    (hs : sign ∈ zodiac_sign_names) (hd1 : 1 ≤ day) (hd2 : day ≤ 31) :
    ((generate_personalized_remedies sign (calculate_nakshatra day) bd).length = 4 ∨
      (generate_personalized_remedies sign (calculate_nakshatra day) bd).length = 5) ∧
    generate_personalized_remedies sign (calculate_nakshatra day) bd ≠ [] ∧
    ((generate_personalized_remedies sign (calculate_nakshatra day) bd).length = 5 ↔
      (zodiac_element sign = "Fire" ∨ zodiac_element sign = "Water")) := by
  have e : generate_personalized_remedies sign (calculate_nakshatra day) bd =
      generate_personalized_remedies sign (calculate_nakshatra day) default_birth := rfl
  rw [e]
  exact remedies_aux sign hs day (Finset.mem_Icc.mpr ⟨hd1, hd2⟩)

/-- C5 witness: the theorem applied to Cancer (a Water sign) at day 15. -/
theorem C5_remedies_length_witness :
    ((generate_personalized_remedies "Cancer" (calculate_nakshatra 15) test_birth_data).length = 4 ∨
      (generate_personalized_remedies "Cancer" (calculate_nakshatra 15) test_birth_data).length = 5) ∧
    generate_personalized_remedies "Cancer" (calculate_nakshatra 15) test_birth_data ≠ [] ∧
    ((generate_personalized_remedies "Cancer" (calculate_nakshatra 15) test_birth_data).length = 5 ↔
      (zodiac_element "Cancer" = "Fire" ∨ zodiac_element "Cancer" = "Water")) :=
  C5_remedies_length "Cancer" 15 test_birth_data (by decide) (by decide) (by decide)

/-!  Claim C8. -/

/-- Exhaustive greatest-key characterization of the ascendant lookup for
hours 0 to 23. -/
lemma ascendant_aux :
    ∀ h ∈ Finset.Icc (0 : Int) 23,
      ∃ k ∈ ascendant_keys, k ≤ h ∧ (∀ k2 ∈ ascendant_keys, k2 ≤ h → k2 ≤ k) ∧
        calculate_ascendant h = ascendant_lookup k := by decide

/-- C8: for every hour in `0..23`, `calculate_ascendant` returns the
table entry of the greatest key less than or equal to the hour, the key
list iterated by the lookup loop is exactly `{22, 20, ..., 0}`, and the
keys of the `ascendant_map` dict are exactly `{0, 2, ..., 22}` (twelve
2-hour buckets). -/
theorem C8_ascendant_lookup (h : Int) (h0 : 0 ≤ h) (h23 : h ≤ 23) :
    (∃ k ∈ ascendant_keys, k ≤ h ∧ (∀ k2 ∈ ascendant_keys, k2 ≤ h → k2 ≤ k) ∧
        calculate_ascendant h = ascendant_lookup k) ∧
      ascendant_keys = [22, 20, 18, 16, 14, 12, 10, 8, 6, 4, 2, 0] ∧
      ascendant_table.map Prod.fst = [0, 2, 4, 6, 8, 10, 12, 14, 16, 18, 20, 22] :=
  ⟨ascendant_aux h (Finset.mem_Icc.mpr ⟨h0, h23⟩), rfl, by decide⟩

/-- C8 witness: the theorem applied at hour 12. -/
theorem C8_ascendant_lookup_witness :
    (∃ k ∈ ascendant_keys, k ≤ (12 : Int) ∧
        (∀ k2 ∈ ascendant_keys, k2 ≤ (12 : Int) → k2 ≤ k) ∧
        calculate_ascendant 12 = ascendant_lookup k) ∧
      ascendant_keys = [22, 20, 18, 16, 14, 12, 10, 8, 6, 4, 2, 0] ∧
      ascendant_table.map Prod.fst = [0, 2, 4, 6, 8, 10, 12, 14, 16, 18, 20, 22] :=
  C8_ascendant_lookup 12 (by decide) (by decide)

/-!  Claim C2. -/

/-- C2: two calls to `generate_predictions` with identical `name`,
`birth_date` and `birth_time` under a fixed current-date clock
(`month_name`) yield identical `overview`, `monthly` and `remedies`
fields, whatever the two random sloka draws are: the random source only
affects `sanskrit_sloka`.  The `birth_place` fields may even differ,
since generation never reads them. -/
theorem C2_determinism (month_name : Nat → String) (r1 r2 : Nat)
    (d1 d2 : BirthData)
    (hn : d1.name = d2.name) (hbd : d1.birth_date = d2.birth_date)
    (hbt : d1.birth_time = d2.birth_time) :
    (generate_predictions month_name r1 d1).predictions =
      (generate_predictions month_name r2 d2).predictions := by
  obtain ⟨n1, bd1, bt1, bp1⟩ := d1
  obtain ⟨n2, bd2, bt2, bp2⟩ := d2
  simp only at hn hbd hbt
  subst hn; subst hbd; subst hbt
  rfl

/-- C2 witness: two calls on the end-to-end input with different sloka
draws and different birth places agree on the deterministic fields. -/
theorem C2_determinism_witness :
    (generate_predictions month_name_fixed 0 test_birth_data).predictions =
      (generate_predictions month_name_fixed 3
        { name := "Test", birth_date := "15081990",
          birth_time := "1230", birth_place := "Mumbai" }).predictions :=
  C2_determinism month_name_fixed 0 3 _ _ rfl rfl rfl

/-!  Claims C6 and C7 share one exhaustive case analysis of the route. -/

/-- Every request ends either in a validation error carrying one of the
six fixed messages, or passes every check and reaches the `try` body:
normally a success bundle, and under an in-flight exception the 500
response that interpolates the exception text. -/
lemma route_exhaust (mn : Nat → String) (si : Nat) (exc : Option String)
    (data : RequestData) :
    (∃ msg ∈ validation_messages,
        generate_predictions_route mn si exc data = .validationError msg) ∨
    ((∀ f ∈ required_fields, field_absent data f = false) ∧
      (data.birth_date.getD "").length = 8 ∧
      py_str_isdigit (data.birth_date.getD "") = true ∧
      (data.birth_time.getD "").length = 4 ∧
      py_str_isdigit (data.birth_time.getD "") = true ∧
      generate_predictions_route mn si exc data =
        (match exc with
          | some e => .serverError ("Failed to generate predictions: " ++ e)
          | none => .success (generate_predictions mn si
              { name := data.name.getD ""
                birth_date := data.birth_date.getD ""
                birth_time := data.birth_time.getD ""
                birth_place := data.birth_place.getD "" }))) := by
  cases hfind : required_fields.find? (fun f => field_absent data f) with
  | some f =>
    left
    have hmem := List.mem_of_find?_eq_some hfind
    refine ⟨"Missing required field: " ++ f, ?_, ?_⟩
    · simp only [required_fields, List.mem_cons, List.not_mem_nil, or_false] at hmem
      rcases hmem with rfl | rfl | rfl | rfl <;> decide
    · unfold generate_predictions_route
      rw [hfind]
  | none =>
    by_cases hc1 : (data.birth_date.getD "").length ≠ 8 ∨
        py_str_isdigit (data.birth_date.getD "") = false
    · left
      refine ⟨"Birth date must be in DDMMYYYY format", by decide, ?_⟩
      unfold generate_predictions_route
      rw [hfind, if_pos hc1]
    · by_cases hc2 : (data.birth_time.getD "").length ≠ 4 ∨
          py_str_isdigit (data.birth_time.getD "") = false
      · left
        refine ⟨"Birth time must be in HHMM format (24-hour)", by decide, ?_⟩
        unfold generate_predictions_route
        rw [hfind, if_neg hc1, if_pos hc2]
      · right
        rcases not_or.mp hc1 with ⟨hc1a, hc1b⟩
        rcases not_or.mp hc2 with ⟨hc2a, hc2b⟩
        have h1 : (data.birth_date.getD "").length = 8 := by omega
        have h2 : py_str_isdigit (data.birth_date.getD "") = true := by
          revert hc1b; cases py_str_isdigit (data.birth_date.getD "") <;> simp
        have h3 : (data.birth_time.getD "").length = 4 := by omega
        have h4 : py_str_isdigit (data.birth_time.getD "") = true := by
          revert hc2b; cases py_str_isdigit (data.birth_time.getD "") <;> simp
        have hall : ∀ f ∈ required_fields, field_absent data f = false := by
          intro f hf
          have hnf := List.find?_eq_none.mp hfind f hf
          revert hnf; cases field_absent data f <;> simp
        refine ⟨hall, h1, h2, h3, h4, ?_⟩
        unfold generate_predictions_route
        rw [hfind, if_neg hc1, if_neg hc2]

/-- C6 counterexample: the claim quantifies over every `birth_date` that
is not exactly 8 ASCII digits, but the real check is Python
`str.isdigit`, which covers all Unicode digits: the 8-character
Arabic-Indic `birth_date` of `unicode_request` is not ASCII digits, yet
the route validates it and produces a `PredictionBundle` instead of a
validation error. -/
theorem C6_counterexample :
    ascii_isdigit (unicode_request.birth_date.getD "") = false ∧
      (unicode_request.birth_date.getD "").length = 8 ∧
      (generate_predictions_route month_name_fixed 0 none unicode_request).has_bundle = true := by
  refine ⟨?_, ?_, ?_⟩ <;> decide

/-- C6 (amended): for every payload missing one of the four required
fields (or carrying a falsy value for it), or whose `birth_date` fails
the digit check of the route — length other than 8, or some character
outside the Unicode digit class of Python `str.isdigit` (which is wider
than ASCII `0`..`9`) — or whose `birth_time` similarly fails the
4-digit check, the route answers a validation error carrying one of the
fixed field-identifying messages and produces no `PredictionBundle`; in
particular the 7-character `birth_date` `"3101199"` of the spec scenario
draws the birth-date format message. -/
theorem C6_validation_amended (month_name : Nat → String) (sloka_index : Nat)
    (data : RequestData)
    (h : (∃ f ∈ required_fields, field_absent data f = true) ∨
         (data.birth_date.getD "").length ≠ 8 ∨
         py_str_isdigit (data.birth_date.getD "") = false ∨
         (data.birth_time.getD "").length ≠ 4 ∨
         py_str_isdigit (data.birth_time.getD "") = false) :
    (∃ msg ∈ validation_messages,
        generate_predictions_route month_name sloka_index none data =
          .validationError msg) ∧
    (generate_predictions_route month_name sloka_index none data).has_bundle = false ∧
    generate_predictions_route month_name sloka_index none malformed_request =
      .validationError "Birth date must be in DDMMYYYY format" := by
  rcases route_exhaust month_name sloka_index none data with
    ⟨msg, hmem, heq⟩ | ⟨hall, h1, h2, h3, h4, heq⟩
  · exact ⟨⟨msg, hmem, heq⟩, by rw [heq]; rfl, rfl⟩
  · exfalso
    rcases h with ⟨f, hf, habs⟩ | h | h | h | h
    · rw [hall f hf] at habs; cases habs
    · exact h h1
    · rw [h2] at h; cases h
    · exact h h3
    · rw [h4] at h; cases h

/-- C6 witness: the amended theorem applied to the malformed-birth-date
payload of the spec scenario. -/
theorem C6_validation_witness :
    (∃ msg ∈ validation_messages,
        generate_predictions_route month_name_fixed 0 none malformed_request =
          .validationError msg) ∧
    (generate_predictions_route month_name_fixed 0 none malformed_request).has_bundle = false ∧
    generate_predictions_route month_name_fixed 0 none malformed_request =
      .validationError "Birth date must be in DDMMYYYY format" :=
  C6_validation_amended month_name_fixed 0 malformed_request (Or.inr (Or.inl (by decide)))

/-!  Claim C7. -/

/-- C7 counterexample: the exception handler of the route is not generic
and exposes internals: the 500 message interpolates `str(e)` (the code
answers the fixed failure message concatenated with `str(e)`), so two different
in-flight exceptions on the same valid request produce two different
responses, and the exception text appears verbatim in the reply. -/
theorem C7_counterexample :
    generate_predictions_route month_name_fixed 0 (some "KeyError: traits") valid_request =
        .serverError "Failed to generate predictions: KeyError: traits" ∧
      generate_predictions_route month_name_fixed 0 (some "KeyError: traits") valid_request ≠
        generate_predictions_route month_name_fixed 0 (some "ZeroDivisionError") valid_request := by
  constructor
  · rfl
  · decide

/-- C7 (amended): every unexpected exception during derivation or
template selection is caught at the request boundary — the response is
either a validation error (when the checks fail before generation) or
the 500 failure whose message embeds the exception text, and in no case
is an incomplete or degraded `PredictionBundle` returned (error responses
carry no bundle at all). -/
theorem C7_exception_boundary_amended (month_name : Nat → String)
    (sloka_index : Nat) (e : String) (data : RequestData) :
    (generate_predictions_route month_name sloka_index (some e) data).has_bundle = false ∧
    (generate_predictions_route month_name sloka_index (some e) data =
        .serverError ("Failed to generate predictions: " ++ e) ∨
      ∃ msg ∈ validation_messages,
        generate_predictions_route month_name sloka_index (some e) data =
          .validationError msg) := by
  rcases route_exhaust month_name sloka_index (some e) data with
    ⟨msg, hmem, heq⟩ | ⟨-, -, -, -, -, heq⟩
  · exact ⟨by rw [heq]; rfl, Or.inr ⟨msg, hmem, heq⟩⟩
  · exact ⟨by rw [heq]; rfl, Or.inl heq⟩

/-- C7 witness: the amended theorem applied to a concrete exception on
the end-to-end request. -/
theorem C7_exception_boundary_witness :
    (generate_predictions_route month_name_fixed 0 (some "boom") valid_request).has_bundle = false ∧
    (generate_predictions_route month_name_fixed 0 (some "boom") valid_request =
        .serverError ("Failed to generate predictions: " ++ "boom") ∨
      ∃ msg ∈ validation_messages,
        generate_predictions_route month_name_fixed 0 (some "boom") valid_request =
          .validationError msg) :=
  C7_exception_boundary_amended month_name_fixed 0 "boom" valid_request

/-!  Claim C9. -/

/-- An ASCII-digit string is in the full digit class of `str.isdigit`:
its characters sit in the first decade of `py_decimal_decades`. -/
lemma py_str_isdigit_of_ascii (s : String) (h : ascii_isdigit s = true) :
    py_str_isdigit s = true := by
  unfold ascii_isdigit at h
  unfold py_str_isdigit
  simp only [Bool.and_eq_true, List.all_eq_true] at h ⊢
  obtain ⟨h1, h2⟩ := h
  refine ⟨h1, ?_⟩
  intro c hc
  have hd := of_decide_eq_true (h2 c hc)
  have hdec : py_char_isdecimal c = true := by
    unfold py_char_isdecimal
    rw [List.any_eq_true]
    refine ⟨(48, 57), ?_, decide_eq_true hd⟩
    unfold py_decimal_decades
    exact List.mem_cons_self _ _
  rw [hdec]
  rfl

/-- C9: on every payload passing the shape check — birth date of 8 ASCII
digits and birth time of 4 ASCII digits, the scope the claim itself
fixes — the pipeline is total: the bundle is produced by the pure
component functions (no exception can arise), and the semantically
out-of-range values the validator lets through
fall through silently: a month matched by no zodiac range (0 or 13..99)
yields Pisces, an hour above 23 yields Pisces through the greatest-key
lookup, and day 0 yields nakshatra index `(0-1) mod 27 = 26`, Revati. -/
theorem C9_shape_totality :
    (∀ (month_name : Nat → String) (sloka_index : Nat) (data : BirthData),
        2 ≤ data.birth_time.length →
        (generate_predictions month_name sloka_index data).chart_info.zodiac_sign =
            (calculate_zodiac_sign (int_of_digits (str_slice data.birth_date 0 2))
              (int_of_digits (str_slice data.birth_date 2 4))).1 ∧
          (generate_predictions month_name sloka_index data).chart_info.nakshatra =
            calculate_nakshatra (int_of_digits (str_slice data.birth_date 0 2)) ∧
          (generate_predictions month_name sloka_index data).chart_info.ascendant =
            (calculate_ascendant (int_of_digits (str_slice data.birth_time 0 2))).1) ∧
    (∀ (month_name : Nat → String) (sloka_index : Nat) (data : RequestData),
        (∀ f ∈ required_fields, field_absent data f = false) →
        (data.birth_date.getD "").length = 8 →
        ascii_isdigit (data.birth_date.getD "") = true →
        (data.birth_time.getD "").length = 4 →
        ascii_isdigit (data.birth_time.getD "") = true →
        generate_predictions_route month_name sloka_index none data =
          .success (generate_predictions month_name sloka_index
            { name := data.name.getD ""
              birth_date := data.birth_date.getD ""
              birth_time := data.birth_time.getD ""
              birth_place := data.birth_place.getD "" })) ∧
    (∀ d m : Int, 0 ≤ d → d ≤ 99 → (m = 0 ∨ (13 ≤ m ∧ m ≤ 99)) →
        calculate_zodiac_sign d m = ("Pisces", "Meena")) ∧
    (∀ h : Int, 24 ≤ h → h ≤ 99 → calculate_ascendant h = ("Pisces", "Meena")) ∧
    calculate_nakshatra 0 = "Revati" := by
  refine ⟨?_, ?_, ?_, ?_, by decide⟩
  · intro month_name sloka_index data ht
    refine ⟨rfl, rfl, ?_⟩
    show (calculate_ascendant
        (if data.birth_time.length ≥ 2 then int_of_digits (str_slice data.birth_time 0 2)
         else 12)).1 = _
    rw [if_pos ht]
  · intro month_name sloka_index data hall h1 h2 h3 h4
    have hfind : required_fields.find? (fun f => field_absent data f) = none := by
      refine List.find?_eq_none.mpr ?_
      intro f hf
      rw [hall f hf]
      simp
    unfold generate_predictions_route
    have h2u := py_str_isdigit_of_ascii _ h2
    have h4u := py_str_isdigit_of_ascii _ h4
    rw [hfind, if_neg (by simp [h1, h2u]), if_neg (by simp [h3, h4u])]
  · intro d m hd0 hd99 hm
    unfold calculate_zodiac_sign
    iterate 11 rw [if_neg (by omega)]
  · intro h h24 h99
    have h22 : decide ((22 : Int) ≤ h) = true := decide_eq_true (by omega)
    unfold calculate_ascendant ascendant_keys
    simp only [List.find?, h22]
    decide

/-- C9 witness: the totality theorem applied to the end-to-end birth
input, a shape-valid request, month 13, hour 24 and day 0. -/
theorem C9_shape_totality_witness :
    ((generate_predictions month_name_fixed 0 test_birth_data).chart_info.zodiac_sign =
        (calculate_zodiac_sign (int_of_digits (str_slice test_birth_data.birth_date 0 2))
          (int_of_digits (str_slice test_birth_data.birth_date 2 4))).1 ∧
      (generate_predictions month_name_fixed 0 test_birth_data).chart_info.nakshatra =
        calculate_nakshatra (int_of_digits (str_slice test_birth_data.birth_date 0 2)) ∧
      (generate_predictions month_name_fixed 0 test_birth_data).chart_info.ascendant =
        (calculate_ascendant (int_of_digits (str_slice test_birth_data.birth_time 0 2))).1) ∧
    (generate_predictions_route month_name_fixed 0 none valid_request =
      .success (generate_predictions month_name_fixed 0
        { name := valid_request.name.getD ""
          birth_date := valid_request.birth_date.getD ""
          birth_time := valid_request.birth_time.getD ""
          birth_place := valid_request.birth_place.getD "" })) ∧
    calculate_zodiac_sign 5 13 = ("Pisces", "Meena") ∧
    calculate_ascendant 24 = ("Pisces", "Meena") ∧
    calculate_nakshatra 0 = "Revati" :=
  ⟨C9_shape_totality.1 month_name_fixed 0 test_birth_data (by decide),
   C9_shape_totality.2.1 month_name_fixed 0 valid_request (by decide) (by decide)
     (by decide) (by decide) (by decide),
   C9_shape_totality.2.2.1 5 13 (by decide) (by decide) (Or.inr (by decide)),
   C9_shape_totality.2.2.2.1 24 (by decide) (by decide),
   C9_shape_totality.2.2.2.2⟩

/-!  Claim C10. -/

/-- C10: the auspicious-days string is built from the three values
`(birth_day + i) mod 28 + 1` for `i` in `{0, 1, 2}`, each in `1..28`; it
does not depend on the `month_index` argument, so all 12 monthly
forecasts of one bundle carry the identical auspicious-days string
(every entry equals the string computed with index 0). -/
theorem C10_auspicious_days (birth_day birth_month : Int) (i j : Nat)
    (month_name : Nat → String) (data : BirthData) :
    generate_auspicious_days birth_day birth_month i =
      generate_auspicious_days birth_day birth_month j ∧
    (∀ k : Nat, k < 3 →
      1 ≤ (birth_day + (k : Int)) % 28 + 1 ∧ (birth_day + (k : Int)) % 28 + 1 ≤ 28) ∧
    generate_auspicious_days birth_day birth_month i =
      toString ((birth_day + 0) % 28 + 1) ++ ", " ++
        toString ((birth_day + 1) % 28 + 1) ++ ", " ++
        toString ((birth_day + 2) % 28 + 1) ∧
    (∀ p ∈ generate_monthly_predictions month_name data,
      p.auspicious_days =
        generate_auspicious_days (int_of_digits (str_slice data.birth_date 0 2))
          (int_of_digits (str_slice data.birth_date 2 4)) 0) := by
  refine ⟨rfl, ?_, ?_, ?_⟩
  · intro k hk
    have hnn := Int.emod_nonneg (birth_day + (k : Int)) (by norm_num : (28 : Int) ≠ 0)
    have hlt := Int.emod_lt_of_pos (birth_day + (k : Int)) (by norm_num : (0 : Int) < 28)
    omega
  · rfl
  · intro p hp
    simp only [generate_monthly_predictions, List.mem_map] at hp
    obtain ⟨idx, hidx, rfl⟩ := hp
    rfl

/-- C10 witness: the theorem applied at day 15, month 8, indices 2 and 7,
the fixed clock and the end-to-end birth input. -/
theorem C10_auspicious_days_witness :
    generate_auspicious_days 15 8 2 = generate_auspicious_days 15 8 7 ∧
    (∀ k : Nat, k < 3 →
      1 ≤ ((15 : Int) + (k : Int)) % 28 + 1 ∧ ((15 : Int) + (k : Int)) % 28 + 1 ≤ 28) ∧
    generate_auspicious_days 15 8 2 =
      toString (((15 : Int) + 0) % 28 + 1) ++ ", " ++
        toString (((15 : Int) + 1) % 28 + 1) ++ ", " ++
        toString (((15 : Int) + 2) % 28 + 1) ∧
    (∀ p ∈ generate_monthly_predictions month_name_fixed test_birth_data,
      p.auspicious_days =
        generate_auspicious_days (int_of_digits (str_slice test_birth_data.birth_date 0 2))
          (int_of_digits (str_slice test_birth_data.birth_date 2 4)) 0) :=
  C10_auspicious_days 15 8 2 7 month_name_fixed test_birth_data

end Kundali
